import Mathlib

/-!
Verification of the ScoreTrigger / HomeRunSystem component of the
home-run WebXR mini-game.

The repository holds several near-duplicate revisions of the same scoring
system.  The authoritative gated revision is `src/iwsdk-app/src/index.js`
(class `HomeRunSystem`): its `update` method latches on a `triggered` flag,
reads the configured `wallZ`, `show` callback and goal-mouth x-range
(`goalXMin`, `goalXMax`), early-returns when the callback is absent, and
scans the tracked balls in order, firing `show('3 Points for Dublin!')` for
the first ball with `z < wallZ` that lies inside the x-range, then breaks.
The ungated revisions (`src/unnamed/part_000`, `src/unnamed/part_001`) are
identical except that no x-range is configured: any ball with `z < wallZ`
scores.  Following the spec's data model, the x-range is embedded as an
`Option`: `some (goalXMin, goalXMax)` for the gated revision, `none` for
the ungated ones.  Coordinates are embedded as rationals.
-/

namespace HomeRun

/-- A tracked object's position, as read from `e.object3D.position`
(the scoring check reads only `x` and `z`; `y` is carried but unused). -/
structure TrackedObject where
  x : ℚ
  y : ℚ
  z : ℚ
deriving DecidableEq, Repr

/-- The system configuration of `HomeRunSystem` in
`src/iwsdk-app/src/index.js`: the scoring line `wallZ`, the optional
goal-mouth x-range (`some (goalXMin, goalXMax)` in the gated revision,
`none` in the ungated revisions `part_000` / `part_001`), whether the
`show` notification callback is configured (its default is `null`), and
the fixed message string passed to it. -/
structure HomeRunConfig where
  wallZ : ℚ
  goalX : Option (ℚ × ℚ)
  hasShow : Bool
  msg : String
deriving DecidableEq, Repr

/-- The mutable state of `HomeRunSystem`: the single one-shot flag
`this.triggered`, set to `false` by `init()`. -/
structure HomeRunState where
  triggered : Bool
deriving DecidableEq, Repr

/-- `init()` of `HomeRunSystem`: arms the trigger. -/
def init : HomeRunState := ⟨false⟩

/-- The x-range gate of `src/iwsdk-app/src/index.js` line 119:
`x >= goalXMin && x <= goalXMax`; when no x-range is configured
(the ungated revisions) the gate is absent, i.e. always passes. -/
def inGoalX (cfg : HomeRunConfig) (x : ℚ) : Bool :=
  match cfg.goalX with
  | none => true
  | some (lo, hi) => decide (lo ≤ x) && decide (x ≤ hi)

/-- The per-object scoring condition of `update`:
`z < wallZ && x >= goalXMin && x <= goalXMax` (gated revision), or just
`z < wallZ` (ungated revisions). -/
def scoresB (cfg : HomeRunConfig) (o : TrackedObject) : Bool :=
  decide (o.z < cfg.wallZ) && inGoalX cfg o.x

/-- The `for (const e of this.queries.balls.entities)` loop body of
`update`: entities without a position (`if (!pos) continue;`) are skipped;
the first scoring ball sets the flag, emits the message and breaks.
Returns whether the loop fired together with the emitted messages. -/
def scanBalls (cfg : HomeRunConfig) : List (Option TrackedObject) → Bool × List String
  | [] => (false, [])
  | none :: rest => scanBalls cfg rest
  | some pos :: rest =>
    if scoresB cfg pos then (true, [cfg.msg]) else scanBalls cfg rest

/-- `HomeRunSystem.update` of `src/iwsdk-app/src/index.js` (lines
102-125), the spec's `evaluate`: if `this.triggered` is set, return at
once; if the `show` callback is absent (`if (!show) return;`), return
without scanning; otherwise scan the balls.  The result is the new state,
whether a score was newly detected by this call, and the list of
notification messages emitted (the call to `show`). -/
def update (cfg : HomeRunConfig) (s : HomeRunState) (balls : List (Option TrackedObject)) :
    HomeRunState × Bool × List String :=
  if s.triggered then (s, false, [])
  else
    match cfg.hasShow with
    | false => (s, false, [])
    | true =>
      let r := scanBalls cfg balls
      if r.1 then (⟨true⟩, true, r.2) else (s, false, [])

/-- Modelled from the spec: `reset()` is absent from every source revision
(only `init()` arms the flag); the spec defines it as clearing `triggered`
to `false`, re-arming the trigger, with no effect on the boundary
configuration (which lives in `HomeRunConfig`, untouched by this
function). -/
def reset (_s : HomeRunState) : HomeRunState := ⟨false⟩

/-- The observable trace of a sequence of `update` calls from a given
state: for each tick's ball list, the pair (score newly detected,
messages emitted), threading the state through. -/
def runTrace (cfg : HomeRunConfig) :
    HomeRunState → List (List (Option TrackedObject)) → List (Bool × List String)
  | _, [] => []
  | s, balls :: rest =>
    let r := update cfg s balls
    (r.2.1, r.2.2) :: runTrace cfg r.1 rest

/-- The gated configuration registered in `src/iwsdk-app/src/index.js`:
`wallZ = -4`, goal mouth from `goalXMin = -2` to `goalXMax = 2`, a `show`
callback wired to the message board. -/
def cfgGAA : HomeRunConfig :=
  { wallZ := -4, goalX := some (-2, 2), hasShow := true, msg := "3 Points for Dublin!" }



lemma update_of_triggered (cfg : HomeRunConfig) (s : HomeRunState)
    (balls : List (Option TrackedObject)) (h : s.triggered = true) :
    update cfg s balls = (s, false, []) := by
  simp [update, h]

lemma update_of_noShow (cfg : HomeRunConfig) (s : HomeRunState)
    (balls : List (Option TrackedObject)) (h : cfg.hasShow = false) :
    update cfg s balls = (s, false, []) := by
  unfold update
  rcases hs : s.triggered with _ | _ <;> simp [h]

lemma scanBalls_eq_find (cfg : HomeRunConfig) (balls : List (Option TrackedObject)) :
    scanBalls cfg balls =
      match (balls.filterMap id).find? (scoresB cfg) with
      | some _ => (true, [cfg.msg])
      | none => (false, []) := by
  induction balls with
  | nil => rfl
  | cons hd tl ih =>
    cases hd with
    | none => simpa [scanBalls, List.filterMap_cons] using ih
    | some pos =>
      by_cases h : scoresB cfg pos
      · simp [scanBalls, List.filterMap_cons, List.find?, h]
      · simp only [scanBalls, List.filterMap_cons, id] at *
        rw [List.find?_cons_of_neg _ (by simpa using h)]
        simpa [h] using ih

lemma update_armed (cfg : HomeRunConfig) (s : HomeRunState)
    (balls : List (Option TrackedObject)) (hshow : cfg.hasShow = true)
    (harm : s.triggered = false) :
    update cfg s balls =
      match (balls.filterMap id).find? (scoresB cfg) with
      | some _ => (⟨true⟩, true, [cfg.msg])
      | none => (s, false, []) := by
  unfold update
  rw [harm, hshow]
  rw [scanBalls_eq_find]
  rcases hf : (balls.filterMap id).find? (scoresB cfg) with _ | o <;> simp [hf]

lemma inGoalX_eq_true (cfg : HomeRunConfig) (x : ℚ) :
    inGoalX cfg x = true ↔
      (cfg.goalX = none ∨ ∃ lo hi, cfg.goalX = some (lo, hi) ∧ lo ≤ x ∧ x ≤ hi) := by
  rcases hg : cfg.goalX with _ | ⟨lo, hi⟩
  · simp [inGoalX, hg]
  · simp only [inGoalX, hg, Bool.and_eq_true, decide_eq_true_eq, reduceCtorEq,
      false_or, Option.some.injEq, Prod.mk.injEq]
    constructor
    · rintro ⟨h1, h2⟩
      exact ⟨lo, hi, ⟨rfl, rfl⟩, h1, h2⟩
    · rintro ⟨lo', hi', ⟨rfl, rfl⟩, h1, h2⟩
      exact ⟨h1, h2⟩

lemma scoresB_eq_true (cfg : HomeRunConfig) (o : TrackedObject) :
    scoresB cfg o = true ↔
      o.z < cfg.wallZ ∧
        (cfg.goalX = none ∨ ∃ lo hi, cfg.goalX = some (lo, hi) ∧ lo ≤ o.x ∧ o.x ≤ hi) := by
  rw [scoresB, Bool.and_eq_true, decide_eq_true_eq, inGoalX_eq_true]

/-- Claim C1: latched one-shot invariant — from a state where `triggered`
is already true, every subsequent `update` call detects no score and emits
no notification, for any sequence of ticks, until an explicit reset. -/
theorem evaluate_latched (cfg : HomeRunConfig) (s : HomeRunState)
    (ticks : List (List (Option TrackedObject))) (h : s.triggered = true) :
    runTrace cfg s ticks = List.replicate ticks.length (false, []) := by
  induction ticks generalizing s with
  | nil => rfl
  | cons t rest ih =>
    simp only [runTrace, update_of_triggered cfg s t h, List.length_cons,
      List.replicate_succ, List.cons.injEq]
    exact ⟨trivial, ih s h⟩

theorem evaluate_latched_witness :
    runTrace cfgGAA ⟨true⟩ [[some ⟨0, 0, -5⟩], []] = List.replicate 2 (false, []) :=
  evaluate_latched cfgGAA ⟨true⟩ [[some ⟨0, 0, -5⟩], []] rfl

/-- Claim C2: scoring predicate and first-match-wins — when armed and the
callback is present, the per-object test is strictly-past-the-plane plus
the optional x-range gate, and `update` is determined by the first object
in order that passes: it latches the flag and emits exactly the configured
message; with no passing object the call is a no-op. -/
theorem evaluate_first_match (cfg : HomeRunConfig) (s : HomeRunState)
    (balls : List (Option TrackedObject)) (hshow : cfg.hasShow = true)
    (harm : s.triggered = false) :
    (∀ o : TrackedObject, scoresB cfg o = true ↔
      o.z < cfg.wallZ ∧ (cfg.goalX = none ∨
        ∃ lo hi, cfg.goalX = some (lo, hi) ∧ lo ≤ o.x ∧ o.x ≤ hi)) ∧
    ((balls.filterMap id).find? (scoresB cfg) = none →
      update cfg s balls = (s, false, [])) ∧
    (∀ o, (balls.filterMap id).find? (scoresB cfg) = some o →
      scoresB cfg o = true ∧ update cfg s balls = (⟨true⟩, true, [cfg.msg])) := by
  refine ⟨scoresB_eq_true cfg, ?_, ?_⟩
  · intro hf
    rw [update_armed cfg s balls hshow harm, hf]
  · intro o hf
    refine ⟨List.find?_some hf, ?_⟩
    rw [update_armed cfg s balls hshow harm, hf]

theorem evaluate_first_match_witness :
    scoresB cfgGAA ⟨1, 0, -5⟩ = true ∧
    update cfgGAA ⟨false⟩ [some ⟨5, 0, -5⟩, none, some ⟨1, 0, -5⟩, some ⟨0, 0, -6⟩] =
      (⟨true⟩, true, ["3 Points for Dublin!"]) :=
  (evaluate_first_match cfgGAA ⟨false⟩
      [some ⟨5, 0, -5⟩, none, some ⟨1, 0, -5⟩, some ⟨0, 0, -6⟩] rfl rfl).2.2
    ⟨1, 0, -5⟩ (by norm_num [List.filterMap_cons, List.find?, scoresB, inGoalX, cfgGAA])




/-- Claim C3: return value and empty input — `update` reports true exactly
when armed, callback present, and some tracked object passes the scoring
test; on an empty ball list it is a no-op, and whenever no score is
detected no notification message is emitted. -/
theorem evaluate_result_spec (cfg : HomeRunConfig) (s : HomeRunState) :
    update cfg s [] = (s, false, []) ∧
    (∀ balls, (update cfg s balls).2.1 = true ↔
      s.triggered = false ∧ cfg.hasShow = true ∧
        (balls.filterMap id).any (scoresB cfg) = true) ∧
    (∀ balls, (update cfg s balls).2.1 = false → (update cfg s balls).2.2 = []) := by
  have main : ∀ balls, (update cfg s balls).2.1 = true ↔
      s.triggered = false ∧ cfg.hasShow = true ∧
        (balls.filterMap id).any (scoresB cfg) = true := by
    intro balls
    rcases hs : s.triggered with _ | _
    · rcases hw : cfg.hasShow with _ | _
      · simp [update_of_noShow cfg s balls hw, hw]
      · rw [update_armed cfg s balls hw hs]
        rcases hf : (balls.filterMap id).find? (scoresB cfg) with _ | o
        · constructor
          · intro h
            simp at h
          · rintro ⟨-, -, hany⟩
            obtain ⟨p, hp, hpsc⟩ := List.any_eq_true.mp hany
            exact absurd hpsc (by simpa using List.find?_eq_none.mp hf p hp)
        · constructor
          · intro _
            exact ⟨rfl, rfl,
              List.any_eq_true.mpr ⟨o, List.mem_of_find?_eq_some hf, List.find?_some hf⟩⟩
          · intro _
            rfl
    · simp [update_of_triggered cfg s balls hs, hs]
  refine ⟨?_, main, ?_⟩
  · rcases hs : s.triggered with _ | _
    · rcases hw : cfg.hasShow with _ | _
      · exact update_of_noShow cfg s [] hw
      · rw [update_armed cfg s [] hw hs]
        rfl
    · exact update_of_triggered cfg s [] hs
  · intro balls hfired
    rcases hs : s.triggered with _ | _
    · rcases hw : cfg.hasShow with _ | _
      · simp [update_of_noShow cfg s balls hw]
      · rw [update_armed cfg s balls hw hs] at hfired ⊢
        rcases hf : (balls.filterMap id).find? (scoresB cfg) with _ | o
        · simp [hf]
        · simp [hf] at hfired
    · simp [update_of_triggered cfg s balls hs]

theorem evaluate_result_spec_witness :
    update cfgGAA ⟨false⟩ [] = (⟨false⟩, false, []) :=
  (evaluate_result_spec cfgGAA ⟨false⟩).1

/-- Claim C4: strict boundary comparison — an object sitting exactly on
the scoring plane never passes the test, and a call whose tracked objects
all sit exactly on the plane detects no score and changes nothing. -/
theorem no_score_at_planeZ (cfg : HomeRunConfig) (s : HomeRunState)
    (o : TrackedObject) (balls : List (Option TrackedObject))
    (ho : o.z = cfg.wallZ) (hall : ∀ p ∈ balls.filterMap id, p.z = cfg.wallZ) :
    scoresB cfg o = false ∧ update cfg s balls = (s, false, []) := by
  have key : ∀ p : TrackedObject, p.z = cfg.wallZ → scoresB cfg p = false := by
    intro p hp
    unfold scoresB
    simp [hp]
  refine ⟨key o ho, ?_⟩
  rcases hs : s.triggered with _ | _
  · rcases hw : cfg.hasShow with _ | _
    · exact update_of_noShow cfg s balls hw
    · rw [update_armed cfg s balls hw hs,
        List.find?_eq_none.mpr fun p hp => by simp [key p (hall p hp)]]
  · exact update_of_triggered cfg s balls hs

theorem no_score_at_planeZ_witness :
    scoresB cfgGAA ⟨0, 0, -4⟩ = false ∧
    update cfgGAA ⟨false⟩ [some ⟨0, 0, -4⟩] = (⟨false⟩, false, []) :=
  no_score_at_planeZ cfgGAA ⟨false⟩ ⟨0, 0, -4⟩ [some ⟨0, 0, -4⟩] rfl
    (by intro p hp; simp [List.filterMap_cons] at hp; subst hp; rfl)

/-- Claim C5: reset semantics — `reset` clears the flag (re-arming the
trigger) and touches nothing else (in particular the boundary
configuration, which lives in `HomeRunConfig`, is not an input of
`reset`); after a trigger followed by `reset`, a qualifying tick fires the
notification again. -/
theorem reset_rearms (cfg : HomeRunConfig) (s : HomeRunState) (o : TrackedObject)
    (hshow : cfg.hasShow = true) (hsc : scoresB cfg o = true) :
    reset s = ⟨false⟩ ∧
    update cfg (reset s) [some o] = (⟨true⟩, true, [cfg.msg]) := by
  refine ⟨rfl, ?_⟩
  have h1 : ([some o] : List (Option TrackedObject)).filterMap id = [o] := by
    simp [List.filterMap_cons]
  rw [show reset s = ⟨false⟩ from rfl, update_armed cfg ⟨false⟩ [some o] hshow rfl, h1,
    List.find?_cons_of_pos _ hsc]

theorem reset_rearms_witness :
    reset ⟨true⟩ = ⟨false⟩ ∧
    update cfgGAA (reset ⟨true⟩) [some ⟨0, 0, -5⟩] =
      (⟨true⟩, true, ["3 Points for Dublin!"]) :=
  reset_rearms cfgGAA ⟨true⟩ ⟨0, 0, -5⟩ rfl
    (by norm_num [scoresB, inGoalX, cfgGAA])

/-- Claim C6: absent notification sink — with no `show` callback
configured, `update` is a silent no-op on every input: no score, no
message, state unchanged (and, being a total Lean function, it can raise
no error). -/
theorem evaluate_noShow (cfg : HomeRunConfig) (s : HomeRunState)
    (balls : List (Option TrackedObject)) (h : cfg.hasShow = false) :
    update cfg s balls = (s, false, []) :=
  update_of_noShow cfg s balls h

theorem evaluate_noShow_witness :
    update ⟨-4, some (-2, 2), false, "3 Points for Dublin!"⟩ ⟨false⟩
      [some ⟨0, 0, -5⟩] = (⟨false⟩, false, []) :=
  evaluate_noShow ⟨-4, some (-2, 2), false, "3 Points for Dublin!"⟩ ⟨false⟩
    [some ⟨0, 0, -5⟩] rfl

/-- Claim C7: malformed x-range — when the configured range has
`goalXMin > goalXMax`, no object whatsoever passes the gate, so `update`
never detects a score on any input and is a no-op (and raises no
error). -/
theorem malformed_range_unreachable (cfg : HomeRunConfig) (s : HomeRunState)
    (balls : List (Option TrackedObject)) (lo hi : ℚ)
    (hg : cfg.goalX = some (lo, hi)) (hlt : hi < lo) :
    (∀ o : TrackedObject, scoresB cfg o = false) ∧
    update cfg s balls = (s, false, []) := by
  have key : ∀ o : TrackedObject, scoresB cfg o = false := by
    intro o
    unfold scoresB inGoalX
    rw [hg]
    by_cases h1 : lo ≤ o.x
    · by_cases h2 : o.x ≤ hi
      · linarith
      · simp [h2]
    · simp [h1]
  refine ⟨key, ?_⟩
  rcases hs : s.triggered with _ | _
  · rcases hw : cfg.hasShow with _ | _
    · exact update_of_noShow cfg s balls hw
    · rw [update_armed cfg s balls hw hs,
        List.find?_eq_none.mpr fun p _ => by simp [key p]]
  · exact update_of_triggered cfg s balls hs

theorem malformed_range_unreachable_witness :
    update ⟨-4, some (2, -2), true, "3 Points for Dublin!"⟩ ⟨false⟩
      [some ⟨0, 0, -5⟩] = (⟨false⟩, false, []) :=
  (malformed_range_unreachable ⟨-4, some (2, -2), true, "3 Points for Dublin!"⟩
    ⟨false⟩ [some ⟨0, 0, -5⟩] 2 (-2) rfl (by norm_num)).2

/-- Claim C8: ungated boundary — with no x-range configured, any object
strictly past the plane passes the test whatever its x-coordinate, and an
armed call with such an object first in line fires with the configured
message. -/
theorem ungated_scores (cfg : HomeRunConfig) (s : HomeRunState)
    (o : TrackedObject) (rest : List (Option TrackedObject))
    (hg : cfg.goalX = none) (hz : o.z < cfg.wallZ)
    (hshow : cfg.hasShow = true) (harm : s.triggered = false) :
    scoresB cfg o = true ∧
    update cfg s (some o :: rest) = (⟨true⟩, true, [cfg.msg]) := by
  have hsc : scoresB cfg o = true := by
    unfold scoresB inGoalX
    rw [hg]
    simp [hz]
  refine ⟨hsc, ?_⟩
  have h1 : ((some o :: rest) : List (Option TrackedObject)).filterMap id =
      o :: rest.filterMap id := by
    simp [List.filterMap_cons]
  rw [update_armed cfg s (some o :: rest) hshow harm, h1,
    List.find?_cons_of_pos _ hsc]

theorem ungated_scores_witness :
    scoresB ⟨-7/2, none, true, "Home run!"⟩ ⟨100, 0, -4⟩ = true ∧
    update ⟨-7/2, none, true, "Home run!"⟩ ⟨false⟩ [some ⟨100, 0, -4⟩] =
      (⟨true⟩, true, ["Home run!"]) :=
  ungated_scores ⟨-7/2, none, true, "Home run!"⟩ ⟨false⟩ ⟨100, 0, -4⟩ [] rfl
    (by norm_num) rfl rfl

/-- Claim C9: concrete gated test vectors — with the registered boundary
(`goalXMin = -2`, `goalXMax = 2`, `wallZ = -4`) and an armed state, a ball
at (0, -4.01) scores, a ball at (3, -4.01) does not, and a ball at
(0, -3.99) does not. -/
theorem gated_test_vectors :
    update cfgGAA ⟨false⟩ [some ⟨0, 0, -401/100⟩] =
      (⟨true⟩, true, ["3 Points for Dublin!"]) ∧
    update cfgGAA ⟨false⟩ [some ⟨3, 0, -401/100⟩] = (⟨false⟩, false, []) ∧
    update cfgGAA ⟨false⟩ [some ⟨0, 0, -399/100⟩] = (⟨false⟩, false, []) := by
  refine ⟨?_, ?_, ?_⟩ <;> norm_num [update, scanBalls, scoresB, inGoalX, cfgGAA]

/-- Claim C10: frame condition — the only state `update` mutates is the
`triggered` flag (the whole state is that one flag), and only from false
to true; whenever no score is detected the state is returned unchanged;
in particular a qualifying ball seen while the callback is absent does not
consume the one-shot: the state stays armed and the same tick input fires
once a callback is present. -/
theorem evaluate_frame (cfg : HomeRunConfig) (s : HomeRunState)
    (balls : List (Option TrackedObject)) :
    (update cfg s balls).1.triggered = (s.triggered || (update cfg s balls).2.1) ∧
    ((update cfg s balls).2.1 = false → (update cfg s balls).1 = s) ∧
    (cfg.hasShow = false → s.triggered = false →
      (balls.filterMap id).any (scoresB cfg) = true →
      update cfg s balls = (s, false, []) ∧
      (update { cfg with hasShow := true } s balls).2.1 = true) := by
  refine ⟨?_, ?_, ?_⟩
  · rcases hs : s.triggered with _ | _
    · rcases hw : cfg.hasShow with _ | _
      · simp [update_of_noShow cfg s balls hw, hs]
      · rw [update_armed cfg s balls hw hs]
        rcases hf : (balls.filterMap id).find? (scoresB cfg) with _ | o <;> simp [hs]
    · simp [update_of_triggered cfg s balls hs, hs]
  · intro hfired
    rcases hs : s.triggered with _ | _
    · rcases hw : cfg.hasShow with _ | _
      · simp [update_of_noShow cfg s balls hw]
      · rw [update_armed cfg s balls hw hs] at hfired ⊢
        rcases hf : (balls.filterMap id).find? (scoresB cfg) with _ | o
        · simp [hf]
        · simp [hf] at hfired
    · simp [update_of_triggered cfg s balls hs]
  · intro hw harm hany
    refine ⟨update_of_noShow cfg s balls hw, ?_⟩
    have hsc : scoresB { cfg with hasShow := true } = scoresB cfg := rfl
    rw [update_armed { cfg with hasShow := true } s balls rfl harm, hsc]
    rcases hf : (balls.filterMap id).find? (scoresB cfg) with _ | o
    · obtain ⟨p, hp, hpsc⟩ := List.any_eq_true.mp hany
      exact absurd hpsc (by simpa using List.find?_eq_none.mp hf p hp)
    · rfl

theorem evaluate_frame_witness :
    update ⟨-4, some (-2, 2), false, "3 Points for Dublin!"⟩ ⟨false⟩
      [some ⟨0, 0, -5⟩] = (⟨false⟩, false, []) ∧
    (update ⟨-4, some (-2, 2), true, "3 Points for Dublin!"⟩ ⟨false⟩
      [some ⟨0, 0, -5⟩]).2.1 = true :=
  (evaluate_frame ⟨-4, some (-2, 2), false, "3 Points for Dublin!"⟩ ⟨false⟩
    [some ⟨0, 0, -5⟩]).2.2 rfl rfl
    (by norm_num [List.filterMap_cons, scoresB, inGoalX])


end HomeRun
